import Mathlib

/-!
Shallow embedding of the schema-introspection core of
`src/connect_database.py` (functions `get_db_schema_as_create_statements`
and `execute_sql_query`), together with theorems checking the
natural-language specification against it.

Modelling conventions:
* Python scalar values that can appear as a column default are modelled by
  `PyVal` (the code only distinguishes `isinstance(v, str)` from everything
  else, and the non-string values reaching the formatter are integers).
* A database connection handle is modelled by `Connection`: either the
  Python value `None` (falsy), or an object carrying whether it has an
  `is_connected` method (sqlite3 and psycopg2 handles do not; accessing it
  raises `AttributeError`), whether `is_connected()` returns true, and the
  catalog contents reachable through its cursor.
* Each catalog query the code issues (`cursor.execute` + `fetchall`) is
  modelled as a field of `Catalog`; `none` means the query raises an
  exception, `some rows` means it returns `rows`.
* The Python function returns `Optional[str]`, printing a distinct message
  on each failure path.  `SchemaResult` keeps the paths distinct: `ok s`
  is a returned schema string, `invalidConnection` is `None` after the
  guard at the top, `unsupportedDialect` is `None` from the final `else`,
  `extractionFailure` is `None` from the `except` clause, and
  `attributeError` is an uncaught `AttributeError` escaping the function.
-/

/-- Python `s.upper()` as the source applies it to declared type names:
upper-case every character (executable character-by-character form). -/
def pyUpper (s : String) : String :=
  String.mk (s.data.map Char.toUpper)

/-- Python `v.replace("'", "''")` (src/connect_database.py:80, 120, 167):
the pattern is the single character `'`, so the call replaces every single
quote of `v` by two (executable character-by-character form). -/
def pyReplaceQuote (s : String) : String :=
  String.mk (s.data.flatMap fun c => if c = '\'' then [c, c] else [c])

/-- A Python scalar default value: the source only tests `isinstance(v, str)`;
non-string defaults are rendered with `str(v)`, modelled here for integers. -/
inductive PyVal where
  | str (s : String)
  | int (n : Int)
deriving DecidableEq, Repr

/-- Python `str(v)` for the values of `PyVal`. -/
def PyVal.toPyString : PyVal → String
  | .str s => s
  | .int n => toString n

/-- One row of `PRAGMA table_info(t)` in the sqlite branch:
`cid, name, type, notnull, dflt_value, pk` (src/connect_database.py:73). -/
structure SqliteCol where
  cid : Int
  name : String
  type : String
  notnull : Int
  dflt_value : Option PyVal
  pk : Int
deriving DecidableEq, Repr

/-- One row of the `information_schema.columns` query in the postgres branch:
`column_name, data_type, is_nullable, column_default`
(src/connect_database.py:113). -/
structure PgCol where
  column_name : String
  data_type : String
  is_nullable : String
  column_default : Option PyVal
deriving DecidableEq, Repr

/-- One row of the `information_schema.columns` query in the mysql/mariadb
branch: `column_name, column_type, is_nullable, column_key, column_default,
extra` (src/connect_database.py:158). -/
structure MyCol where
  column_name : String
  column_type : String
  is_nullable : String
  column_key : String
  column_default : Option PyVal
  extra : String
deriving DecidableEq, Repr

/-- The `DEFAULT` fragment appended by every branch of the source
(src/connect_database.py:77-82, 117-122, 164-169; the three branches repeat
the same code):  nothing when the default is Python `None`; for a string
default, ` DEFAULT '<v>'` with every single quote of `v` doubled by
`v.replace("'", "''")`; otherwise ` DEFAULT <str(v)>`. -/
def defaultClause : Option PyVal → String
  | none => ""
  | some (.str s) => " DEFAULT '" ++ pyReplaceQuote s ++ "'"
  | some (.int n) => " DEFAULT " ++ toString n

/-- The column definition built by the sqlite branch
(src/connect_database.py:72-88): `    {name} {type.upper()}`, then
` NOT NULL` when `notnull` is truthy (a nonzero integer), then the default
fragment, then ` PRIMARY KEY` when `pk` is truthy (a nonzero integer). -/
def sqliteColDef (c : SqliteCol) : String :=
  let d := "    " ++ c.name ++ " " ++ pyUpper c.type
  let d := if c.notnull ≠ 0 then d ++ " NOT NULL" else d
  let d := d ++ defaultClause c.dflt_value
  if c.pk ≠ 0 then d ++ " PRIMARY KEY" else d

/-- The column definition built by the postgres branch
(src/connect_database.py:113-123): `    {column_name} {data_type.upper()}`,
then ` NOT NULL` exactly when `is_nullable == 'NO'`, then the default
fragment; this branch never appends a key or auto-increment fragment. -/
def pgColDef (c : PgCol) : String :=
  let d := "    " ++ c.column_name ++ " " ++ pyUpper c.data_type
  let d := if c.is_nullable = "NO" then d ++ " NOT NULL" else d
  d ++ defaultClause c.column_default

/-- The column definition built by the mysql/mariadb branch
(src/connect_database.py:157-178): `    {column_name} {column_type.upper()}`,
then ` NOT NULL` when `is_nullable == 'NO'`, then the default fragment, then
` AUTO_INCREMENT` when `extra == 'auto_increment'`, then ` PRIMARY KEY` when
`column_key == 'PRI'`. -/
def myColDef (c : MyCol) : String :=
  let d := "    " ++ c.column_name ++ " " ++ pyUpper c.column_type
  let d := if c.is_nullable = "NO" then d ++ " NOT NULL" else d
  let d := d ++ defaultClause c.column_default
  let d := if c.extra = "auto_increment" then d ++ " AUTO_INCREMENT" else d
  if c.column_key = "PRI" then d ++ " PRIMARY KEY" else d

/-- `f"CREATE TABLE {table_name} (\n" + ",\n".join(column_definitions) + "\n);"`
(src/connect_database.py:70, 93, and the same lines in the other branches). -/
def createTableStmt (table_name : String) (column_definitions : List String) : String :=
  "CREATE TABLE " ++ table_name ++ " (\n" ++ String.intercalate ",\n" column_definitions ++ "\n);"

/-- The catalog contents reachable through a live connection's cursor: one
field per query shape the source issues.  `none` models the query raising an
exception, `some rows` models `fetchall()` returning `rows`. -/
structure Catalog where
  sqlite_tables : Option (List String)
  sqlite_table_info : String → Option (List SqliteCol)
  pg_tables : Option (List String)
  pg_columns : String → Option (List PgCol)
  my_tables : Option (List String)
  my_columns : String → Option (List MyCol)
  run_query : String → Option (List (List PyVal))

/-- A Python connection handle as the two functions see it: Python `None`
(falsy, short-circuits the guard), or an object with/without an
`is_connected` method, the value that method returns, and the catalog its
cursor reads. -/
inductive Connection where
  | null
  | conn (hasIsConnectedMethod : Bool) (connected : Bool) (cat : Catalog)

/-- The outcome of `get_db_schema_as_create_statements`, keeping the source's
failure paths distinct (the Python function returns `None` on the three
middle ones, printing different messages, and an uncaught `AttributeError`
escapes on the last). -/
inductive SchemaResult where
  | ok (schema : String)
  | invalidConnection
  | unsupportedDialect
  | extractionFailure
  | attributeError
deriving DecidableEq, Repr

/-- The per-table loop shared by the three dialect branches
(src/connect_database.py:67-94, 103-129, 136-184): for each listed table, in
order, run the describe-columns query (an exception anywhere aborts the
whole `try`), build one `CREATE TABLE` statement from the column rows, and
collect the statements in table-list order. -/
def renderTables {α : Type} (describe : String → Option (List α))
    (colDef : α → String) : List String → Option (List String)
  | [] => some []
  | t :: ts =>
    match describe t with
    | none => none
    | some cols =>
      match renderTables describe colDef ts with
      | none => none
      | some rest => some (createTableStmt t (cols.map colDef) :: rest)

/-- Embedding of `get_db_schema_as_create_statements(connection, db_type)`
(src/connect_database.py:43-202).  The guard `not connection or
not connection.is_connected()` returns `None` for a falsy or disconnected
handle and raises `AttributeError` for a handle without an `is_connected`
method; then the dialect branch runs under `try`, any catalog-query
exception yielding `None` from the `except` clause; an unrecognized
`db_type` reaches the final `else` and returns `None`; otherwise the
collected statements are joined with `"\n\n"`. -/
def get_db_schema_as_create_statements (connection : Connection) (db_type : String) :
    SchemaResult :=
  match connection with
  | .null => .invalidConnection
  | .conn hasMethod connected cat =>
    if !hasMethod then .attributeError
    else if !connected then .invalidConnection
    else if db_type = "sqlite" then
      match cat.sqlite_tables with
      | none => .extractionFailure
      | some tables =>
        match renderTables cat.sqlite_table_info sqliteColDef tables with
        | none => .extractionFailure
        | some stmts => .ok (String.intercalate "\n\n" stmts)
    else if db_type = "postgres" then
      match cat.pg_tables with
      | none => .extractionFailure
      | some tables =>
        match renderTables cat.pg_columns pgColDef tables with
        | none => .extractionFailure
        | some stmts => .ok (String.intercalate "\n\n" stmts)
    else if db_type = "mysql" ∨ db_type = "mariadb" then
      match cat.my_tables with
      | none => .extractionFailure
      | some tables =>
        match renderTables cat.my_columns myColDef tables with
        | none => .extractionFailure
        | some stmts => .ok (String.intercalate "\n\n" stmts)
    else .unsupportedDialect

/-- The outcome of `execute_sql_query`, with the same reading as
`SchemaResult`: the Python function returns the fetched rows, or `None`
after printing on the two failure paths, and an uncaught `AttributeError`
escapes the guard for handles without `is_connected`. -/
inductive QueryResult where
  | ok (rows : List (List PyVal))
  | invalidConnection
  | queryFailure
  | attributeError
deriving DecidableEq, Repr

/-- Embedding of `execute_sql_query(connection, sql_query)`
(src/connect_database.py:204-241): the same validity guard as schema
extraction, then `cursor.execute(sql_query)` and `fetchall()`, any
exception yielding `None` from the `except` clause. -/
def execute_sql_query (connection : Connection) (sql_query : String) : QueryResult :=
  match connection with
  | .null => .invalidConnection
  | .conn hasMethod connected cat =>
    if !hasMethod then .attributeError
    else if !connected then .invalidConnection
    else
      match cat.run_query sql_query with
      | none => .queryFailure
      | some rows => .ok rows

/-- The spec's error taxonomy maps `InvalidConnectionError` to both
pre-query `None` returns of the source: the null/disconnected-handle guard
and the unrecognized-dialect `else` (spec section 7: "null/unrecognized
handle or dialect"). -/
def isInvalidConnectionOutcome : SchemaResult → Bool
  | .invalidConnection => true
  | .unsupportedDialect => true
  | _ => false

example : sqliteColDef ⟨0, "id", "INTEGER", 0, none, 1⟩ = "    id INTEGER PRIMARY KEY" := by
  rfl

example : sqliteColDef ⟨1, "name", "TEXT", 1, some (.str "anon"), 0⟩ =
    "    name TEXT NOT NULL DEFAULT 'anon'" := by rfl

/-- The spec's uniform Column Descriptor (section 3): name, declared type
(dialect-native spelling), nullable flag, optional default, primary-key
flag, auto-increment flag. -/
structure ColumnDescriptor where
  name : String
  declaredType : String
  nullable : Bool
  defaultValue : Option PyVal
  primaryKey : Bool
  autoIncrement : Bool
deriving DecidableEq, Repr

/-- Modelled from the spec (section 4.3 Statement Renderer): per column, the
type token first (upper-cased), then ` NOT NULL` if not nullable, then
` DEFAULT` if a default exists (string defaults single-quote-wrapped with
internal single quotes doubled, non-string defaults in literal numeric
form), then ` AUTO_INCREMENT` if set, then ` PRIMARY KEY` if set. -/
def renderColumnSpec (d : ColumnDescriptor) : String :=
  "    " ++ d.name ++ " " ++ pyUpper d.declaredType
    ++ (if d.nullable then "" else " NOT NULL")
    ++ (match d.defaultValue with
        | none => ""
        | some (.str s) => " DEFAULT '" ++ pyReplaceQuote s ++ "'"
        | some (.int n) => " DEFAULT " ++ toString n)
    ++ (if d.autoIncrement then " AUTO_INCREMENT" else "")
    ++ (if d.primaryKey then " PRIMARY KEY" else "")

/-- The normalized descriptor the sqlite branch's conditions encode: a
`PRAGMA table_info` row is nullable unless `notnull` is truthy, its
primary-key flag is the truthiness of the integer `pk` (any nonzero value),
and sqlite rows expose no auto-increment information. -/
def normalizeSqlite (c : SqliteCol) : ColumnDescriptor :=
  { name := c.name, declaredType := c.type, nullable := decide (c.notnull = 0),
    defaultValue := c.dflt_value, primaryKey := decide (c.pk ≠ 0),
    autoIncrement := false }

/-- The normalized descriptor the postgres branch's conditions encode:
nullable unless the text flag `is_nullable` equals `'NO'`; the query exposes
no primary-key or auto-increment information, so both flags are false. -/
def normalizePg (c : PgCol) : ColumnDescriptor :=
  { name := c.column_name, declaredType := c.data_type,
    nullable := decide (c.is_nullable ≠ "NO"),
    defaultValue := c.column_default, primaryKey := false,
    autoIncrement := false }

/-- The normalized descriptor the mysql/mariadb branch's conditions encode:
nullable unless `is_nullable` equals `'NO'`, primary key when `column_key`
equals `'PRI'`, auto-increment when `extra` equals `'auto_increment'`. -/
def normalizeMy (c : MyCol) : ColumnDescriptor :=
  { name := c.column_name, declaredType := c.column_type,
    nullable := decide (c.is_nullable ≠ "NO"),
    defaultValue := c.column_default,
    primaryKey := decide (c.column_key = "PRI"),
    autoIncrement := decide (c.extra = "auto_increment") }

theorem sqliteColDef_eq_spec (c : SqliteCol) :
    sqliteColDef c = renderColumnSpec (normalizeSqlite c) := by
  unfold sqliteColDef renderColumnSpec normalizeSqlite
  by_cases h1 : c.notnull = 0 <;> by_cases h2 : c.pk = 0 <;>
    cases c.dflt_value <;>
      simp [h1, h2, String.append_assoc, String.append_empty, defaultClause]

theorem pgColDef_eq_spec (c : PgCol) :
    pgColDef c = renderColumnSpec (normalizePg c) := by
  unfold pgColDef renderColumnSpec normalizePg
  by_cases h1 : c.is_nullable = "NO" <;>
    cases c.column_default <;>
      simp [h1, String.append_assoc, String.append_empty, defaultClause]

theorem myColDef_eq_spec (c : MyCol) :
    myColDef c = renderColumnSpec (normalizeMy c) := by
  unfold myColDef renderColumnSpec normalizeMy
  by_cases h1 : c.is_nullable = "NO" <;> by_cases h2 : c.extra = "auto_increment" <;>
    by_cases h3 : c.column_key = "PRI" <;>
      cases c.column_default <;>
        simp [h1, h2, h3, String.append_assoc, String.append_empty, defaultClause]

theorem renderTables_none_of_mem {α : Type} (describe : String → Option (List α))
    (colDef : α → String) {ts : List String} {t : String}
    (hmem : t ∈ ts) (hfail : describe t = none) :
    renderTables describe colDef ts = none := by
  induction ts with
  | nil => cases hmem
  | cons u us ih =>
    rcases List.mem_cons.mp hmem with h | h
    · subst h
      simp [renderTables, hfail]
    · cases hu : describe u with
      | none => simp [renderTables, hu]
      | some cols => simp [renderTables, hu, ih h]

theorem renderTables_all_some {α : Type} (describe : String → Option (List α))
    (colDef : α → String) (colsOf : String → List α) (ts : List String) :
    (∀ t ∈ ts, describe t = some (colsOf t)) →
    renderTables describe colDef ts
      = some (ts.map fun t => createTableStmt t ((colsOf t).map colDef)) := by
  induction ts with
  | nil => intro _; rfl
  | cons u us ih =>
    intro h
    have hu : describe u = some (colsOf u) := h u (by simp)
    have hus : ∀ t ∈ us, describe t = some (colsOf t) := fun t ht => h t (by simp [ht])
    simp [renderTables, hu, ih hus]

/-- A catalog with no tables in any dialect and every other query failing:
the base for the concrete catalogs below. -/
def emptyCatalog : Catalog :=
  { sqlite_tables := some [], sqlite_table_info := fun _ => none,
    pg_tables := some [], pg_columns := fun _ => none,
    my_tables := some [], my_columns := fun _ => none,
    run_query := fun _ => none }

/-- A catalog whose listing succeeds with two tables but whose
describe-columns query fails on the second table, in every dialect. -/
def catSecondFails : Catalog :=
  { sqlite_tables := some ["t1", "t2"],
    sqlite_table_info := fun t =>
      if t = "t1" then some [⟨0, "a", "int", 0, none, 0⟩] else none,
    pg_tables := some ["t1", "t2"],
    pg_columns := fun t =>
      if t = "t1" then some [⟨"a", "int", "YES", none⟩] else none,
    my_tables := some ["t1", "t2"],
    my_columns := fun t =>
      if t = "t1" then some [⟨"a", "int", "YES", "", none, ""⟩] else none,
    run_query := fun _ => none }

/-- A catalog whose table listing itself fails in every dialect. -/
def catListFails : Catalog :=
  { sqlite_tables := none, sqlite_table_info := fun _ => none,
    pg_tables := none, pg_columns := fun _ => none,
    my_tables := none, my_columns := fun _ => none,
    run_query := fun _ => none }

/-- C1: for every dialect, a failure of any catalog query during
introspection (the table listing, or describing the columns of any listed
table, even after earlier tables succeeded) makes the whole
`get_db_schema_as_create_statements` call end in the single
schema-extraction failure path (`None` from the `except` clause, the spec's
`SchemaExtractionError`), so no statements rendered for earlier tables are
returned. -/
theorem C1_query_failure_aborts_whole_call (cat : Catalog) :
    (cat.sqlite_tables = none →
      get_db_schema_as_create_statements (.conn true true cat) "sqlite" = .extractionFailure)
  ∧ (∀ ts t, cat.sqlite_tables = some ts → t ∈ ts → cat.sqlite_table_info t = none →
      get_db_schema_as_create_statements (.conn true true cat) "sqlite" = .extractionFailure)
  ∧ (cat.pg_tables = none →
      get_db_schema_as_create_statements (.conn true true cat) "postgres" = .extractionFailure)
  ∧ (∀ ts t, cat.pg_tables = some ts → t ∈ ts → cat.pg_columns t = none →
      get_db_schema_as_create_statements (.conn true true cat) "postgres" = .extractionFailure)
  ∧ (∀ d, d = "mysql" ∨ d = "mariadb" →
      (cat.my_tables = none →
        get_db_schema_as_create_statements (.conn true true cat) d = .extractionFailure)
      ∧ (∀ ts t, cat.my_tables = some ts → t ∈ ts → cat.my_columns t = none →
        get_db_schema_as_create_statements (.conn true true cat) d = .extractionFailure)) := by
  refine ⟨?_, ?_, ?_, ?_, ?_⟩
  · intro h
    simp [get_db_schema_as_create_statements, h]
  · intro ts t hts hmem hfail
    simp [get_db_schema_as_create_statements, hts,
      renderTables_none_of_mem cat.sqlite_table_info sqliteColDef hmem hfail]
  · intro h
    simp [get_db_schema_as_create_statements, h]
  · intro ts t hts hmem hfail
    simp [get_db_schema_as_create_statements, hts,
      renderTables_none_of_mem cat.pg_columns pgColDef hmem hfail]
  · intro d hd
    have hd1 : d ≠ "sqlite" := by rcases hd with h | h <;> simp [h]
    have hd2 : d ≠ "postgres" := by rcases hd with h | h <;> simp [h]
    constructor
    · intro h
      simp [get_db_schema_as_create_statements, hd1, hd2, hd, h]
    · intro ts t hts hmem hfail
      simp [get_db_schema_as_create_statements, hd1, hd2, hd, hts,
        renderTables_none_of_mem cat.my_columns myColDef hmem hfail]

/-- Witness for C1: in `catSecondFails`, table `t2` of the listing
`["t1", "t2"]` fails to describe, and the call ends in the extraction
failure for each dialect tag. -/
theorem C1_witness :
    get_db_schema_as_create_statements (.conn true true catSecondFails) "sqlite"
      = .extractionFailure
  ∧ get_db_schema_as_create_statements (.conn true true catSecondFails) "postgres"
      = .extractionFailure
  ∧ get_db_schema_as_create_statements (.conn true true catSecondFails) "mariadb"
      = .extractionFailure
  ∧ get_db_schema_as_create_statements (.conn true true catListFails) "mysql"
      = .extractionFailure :=
  ⟨(C1_query_failure_aborts_whole_call catSecondFails).2.1 ["t1", "t2"] "t2"
      rfl (by decide) (by decide),
   (C1_query_failure_aborts_whole_call catSecondFails).2.2.2.1 ["t1", "t2"] "t2"
      rfl (by decide) (by decide),
   ((C1_query_failure_aborts_whole_call catSecondFails).2.2.2.2 "mariadb"
      (Or.inr rfl)).2 ["t1", "t2"] "t2" rfl (by decide) (by decide),
   ((C1_query_failure_aborts_whole_call catListFails).2.2.2.2 "mysql"
      (Or.inl rfl)).1 rfl⟩

/-- A catalog with one zero-column table followed by an ordinary table
(sqlite dialect). -/
def catEmptyTable : Catalog :=
  { emptyCatalog with
    sqlite_tables := some ["bare", "users"],
    sqlite_table_info := fun t =>
      if t = "bare" then some []
      else if t = "users" then some [⟨0, "id", "INTEGER", 0, none, 1⟩]
      else none }

/-- Counterexample to C2: a table whose describe-columns query returns zero
columns does not make the call fail.  On `catEmptyTable` the source renders
the zero-column table as a degenerate statement and still returns the other
table's statement, so the overall call succeeds. -/
theorem C2_counterexample :
    get_db_schema_as_create_statements (.conn true true catEmptyTable) "sqlite"
      = .ok "CREATE TABLE bare (\n\n);\n\nCREATE TABLE users (\n    id INTEGER PRIMARY KEY\n);"
  ∧ get_db_schema_as_create_statements (.conn true true catEmptyTable) "sqlite"
      ≠ .extractionFailure := by
  exact ⟨by rfl, by decide⟩

/-- C2 as amended: a table whose describe-columns query returns zero columns
raises no error; the call still succeeds, rendering that table as the
degenerate statement `CREATE TABLE <name> (\n\n);` and returning it joined
with every other table's statement. -/
theorem C2_amended_empty_table_renders_degenerate (cat : Catalog)
    (ts : List String) (colsOf : String → List SqliteCol)
    (hts : cat.sqlite_tables = some ts)
    (hcols : ∀ t ∈ ts, cat.sqlite_table_info t = some (colsOf t)) :
    get_db_schema_as_create_statements (.conn true true cat) "sqlite"
      = .ok (String.intercalate "\n\n"
          (ts.map fun t => createTableStmt t ((colsOf t).map sqliteColDef)))
  ∧ ∀ t, colsOf t = [] →
      createTableStmt t ((colsOf t).map sqliteColDef) = "CREATE TABLE " ++ t ++ " (\n\n);" := by
  constructor
  · simp [get_db_schema_as_create_statements, hts,
      renderTables_all_some cat.sqlite_table_info sqliteColDef colsOf ts hcols]
  · intro t ht
    simp only [ht, createTableStmt, List.map_nil, String.intercalate]
    rw [String.append_empty]
    rw [String.append_assoc ("CREATE TABLE " ++ t) " (\n" "\n);"]
    rfl

/-- Witness for the amended C2, applying it to `catEmptyTable`, whose first
table has zero columns. -/
theorem C2_amended_witness :
    get_db_schema_as_create_statements (.conn true true catEmptyTable) "sqlite"
      = .ok (String.intercalate "\n\n"
          (["bare", "users"].map fun t =>
            createTableStmt t
              (((if t = "users" then [(⟨0, "id", "INTEGER", 0, none, 1⟩ : SqliteCol)] else []).map
                sqliteColDef)))) :=
  (C2_amended_empty_table_renders_degenerate catEmptyTable ["bare", "users"]
    (fun t => if t = "users" then [⟨0, "id", "INTEGER", 0, none, 1⟩] else [])
    rfl (by decide)).1

/-- C3: the validity check runs before any catalog access.  A null handle,
and a live handle with an unrecognized dialect tag, both end in a `None`
return of the spec's `InvalidConnectionError` kind, and in both cases the
result is the same whatever the catalog holds — no catalog query
contributes to it. -/
theorem C3_validation_precedes_io (db_type : String) (cat cat2 : Catalog) :
    (get_db_schema_as_create_statements .null db_type = .invalidConnection
      ∧ isInvalidConnectionOutcome (get_db_schema_as_create_statements .null db_type) = true)
  ∧ (db_type ≠ "sqlite" → db_type ≠ "postgres" → db_type ≠ "mysql" → db_type ≠ "mariadb" →
      get_db_schema_as_create_statements (.conn true true cat) db_type = .unsupportedDialect
      ∧ isInvalidConnectionOutcome
          (get_db_schema_as_create_statements (.conn true true cat) db_type) = true
      ∧ get_db_schema_as_create_statements (.conn true true cat) db_type
          = get_db_schema_as_create_statements (.conn true true cat2) db_type) := by
  constructor
  · exact ⟨rfl, rfl⟩
  · intro h1 h2 h3 h4
    have hres : get_db_schema_as_create_statements (.conn true true cat) db_type
        = .unsupportedDialect := by
      simp [get_db_schema_as_create_statements, h1, h2, h3, h4]
    have hres2 : get_db_schema_as_create_statements (.conn true true cat2) db_type
        = .unsupportedDialect := by
      simp [get_db_schema_as_create_statements, h1, h2, h3, h4]
    exact ⟨hres, by rw [hres]; rfl, by rw [hres, hres2]⟩

/-- Witness for C3 at the unrecognized dialect tag `"oracle"` and two
different catalogs. -/
theorem C3_witness :
    get_db_schema_as_create_statements Connection.null "oracle" = .invalidConnection
  ∧ get_db_schema_as_create_statements (.conn true true catSecondFails) "oracle"
      = .unsupportedDialect
  ∧ get_db_schema_as_create_statements (.conn true true catSecondFails) "oracle"
      = get_db_schema_as_create_statements (.conn true true emptyCatalog) "oracle" :=
  ⟨(C3_validation_precedes_io "oracle" catSecondFails emptyCatalog).1.1,
   ((C3_validation_precedes_io "oracle" catSecondFails emptyCatalog).2
      (by decide) (by decide) (by decide) (by decide)).1,
   ((C3_validation_precedes_io "oracle" catSecondFails emptyCatalog).2
      (by decide) (by decide) (by decide) (by decide)).2.2⟩

/-- The catalog of C4's scenario: one sqlite table `users` with an integer
primary-key column and a non-null text column with default `'anon'`. -/
def catUsers : Catalog :=
  { emptyCatalog with
    sqlite_tables := some ["users"],
    sqlite_table_info := fun t =>
      if t = "users" then
        some [⟨0, "id", "INTEGER", 0, none, 1⟩, ⟨1, "name", "TEXT", 1, some (.str "anon"), 0⟩]
      else none }

/-- C4: the file-based scenario `users(id INTEGER PK, name TEXT NOT NULL
DEFAULT 'anon')` yields exactly the spec's schema document. -/
theorem C4_users_scenario :
    get_db_schema_as_create_statements (.conn true true catUsers) "sqlite"
      = .ok "CREATE TABLE users (\n    id INTEGER PRIMARY KEY,\n    name TEXT NOT NULL DEFAULT 'anon'\n);" := by
  rfl

/-- Doubling quotes at the character level doubles the quote count. -/
theorem flatMap_quote_count (l : List Char) :
    (l.flatMap fun c => if c = '\'' then [c, c] else [c]).count '\'' = 2 * l.count '\'' := by
  induction l with
  | nil => rfl
  | cons c cs ih =>
    by_cases h : c = '\'' <;>
      simp [h, ih, List.count_cons, List.count_append, Nat.mul_add, Nat.mul_succ]

/-- C5: for every dialect, a table with N columns renders as exactly N
column-definition lines, one per column in catalog row order, each line
built in the spec's fixed clause order (`renderColumnSpec` over the
dialect's normalized descriptor), and the lines are joined with `",\n"`
with no trailing comma. -/
theorem C5_fixed_order_column_lines (t : String) (scols : List SqliteCol)
    (pcols : List PgCol) (mcols : List MyCol) :
    ((scols.map sqliteColDef).length = scols.length
      ∧ createTableStmt t (scols.map sqliteColDef)
          = "CREATE TABLE " ++ t ++ " (\n"
            ++ String.intercalate ",\n" (scols.map fun c => renderColumnSpec (normalizeSqlite c))
            ++ "\n);")
  ∧ ((pcols.map pgColDef).length = pcols.length
      ∧ createTableStmt t (pcols.map pgColDef)
          = "CREATE TABLE " ++ t ++ " (\n"
            ++ String.intercalate ",\n" (pcols.map fun c => renderColumnSpec (normalizePg c))
            ++ "\n);")
  ∧ ((mcols.map myColDef).length = mcols.length
      ∧ createTableStmt t (mcols.map myColDef)
          = "CREATE TABLE " ++ t ++ " (\n"
            ++ String.intercalate ",\n" (mcols.map fun c => renderColumnSpec (normalizeMy c))
            ++ "\n);") := by
  have hs : sqliteColDef = fun c => renderColumnSpec (normalizeSqlite c) :=
    funext sqliteColDef_eq_spec
  have hp : pgColDef = fun c => renderColumnSpec (normalizePg c) :=
    funext pgColDef_eq_spec
  have hm : myColDef = fun c => renderColumnSpec (normalizeMy c) :=
    funext myColDef_eq_spec
  refine ⟨⟨by simp, ?_⟩, ⟨by simp, ?_⟩, ⟨by simp, ?_⟩⟩
  · rw [createTableStmt, hs]
  · rw [createTableStmt, hp]
  · rw [createTableStmt, hm]

/-- C6: in every dialect's column definition, a string default is rendered
as ` DEFAULT '<v>'` with every internal single quote doubled (O'Brien
becomes 'O''Brien'), a numeric default is rendered unquoted in literal
form, and a missing (`None`) default produces no DEFAULT fragment. -/
theorem C6_default_value_rendering (s : String) (n : Int) :
    defaultClause (some (.str s)) = " DEFAULT '" ++ pyReplaceQuote s ++ "'"
  ∧ (pyReplaceQuote s).data
      = s.data.flatMap (fun ch => if ch = '\'' then [ch, ch] else [ch])
  ∧ (pyReplaceQuote s).data.count '\'' = 2 * s.data.count '\''
  ∧ pyReplaceQuote "O'Brien" = "O''Brien"
  ∧ sqliteColDef ⟨0, "nick", "TEXT", 0, some (.str "O'Brien"), 0⟩
      = "    nick TEXT DEFAULT 'O''Brien'"
  ∧ defaultClause (some (.int n)) = " DEFAULT " ++ toString n
  ∧ defaultClause none = ""
  ∧ myColDef ⟨"qty", "INT", "YES", "", some (.int 3), ""⟩ = "    qty INT DEFAULT 3"
  ∧ pgColDef ⟨"note", "text", "YES", some (.str "O'Brien")⟩
      = "    note TEXT DEFAULT 'O''Brien'" :=
  ⟨rfl, rfl, flatMap_quote_count s.data, rfl, rfl, rfl, rfl, rfl, rfl⟩

/-- C7: a zero-table catalog yields the schema document `""` (a success,
not an error) in every dialect, and with several tables the statements are
joined, in catalog order, with exactly one blank line (`"\n\n"`) between
consecutive statements and no trailing separator. -/
theorem C7_zero_tables_and_blank_line_join (cat : Catalog)
    (colsOfS : String → List SqliteCol) (colsOfP : String → List PgCol)
    (colsOfM : String → List MyCol) :
    (cat.sqlite_tables = some [] →
      get_db_schema_as_create_statements (.conn true true cat) "sqlite" = .ok "")
  ∧ (cat.pg_tables = some [] →
      get_db_schema_as_create_statements (.conn true true cat) "postgres" = .ok "")
  ∧ (cat.my_tables = some [] →
      get_db_schema_as_create_statements (.conn true true cat) "mysql" = .ok ""
      ∧ get_db_schema_as_create_statements (.conn true true cat) "mariadb" = .ok "")
  ∧ (∀ ts, cat.sqlite_tables = some ts →
      (∀ t ∈ ts, cat.sqlite_table_info t = some (colsOfS t)) →
      get_db_schema_as_create_statements (.conn true true cat) "sqlite"
        = .ok (String.intercalate "\n\n"
            (ts.map fun t => createTableStmt t ((colsOfS t).map sqliteColDef))))
  ∧ (∀ ts, cat.pg_tables = some ts →
      (∀ t ∈ ts, cat.pg_columns t = some (colsOfP t)) →
      get_db_schema_as_create_statements (.conn true true cat) "postgres"
        = .ok (String.intercalate "\n\n"
            (ts.map fun t => createTableStmt t ((colsOfP t).map pgColDef))))
  ∧ (∀ d, d = "mysql" ∨ d = "mariadb" → ∀ ts, cat.my_tables = some ts →
      (∀ t ∈ ts, cat.my_columns t = some (colsOfM t)) →
      get_db_schema_as_create_statements (.conn true true cat) d
        = .ok (String.intercalate "\n\n"
            (ts.map fun t => createTableStmt t ((colsOfM t).map myColDef)))) := by
  refine ⟨?_, ?_, ?_, ?_, ?_, ?_⟩
  · intro h
    simp [get_db_schema_as_create_statements, h, renderTables, String.intercalate]
  · intro h
    simp [get_db_schema_as_create_statements, h, renderTables, String.intercalate]
  · intro h
    constructor <;>
      simp [get_db_schema_as_create_statements, h, renderTables, String.intercalate]
  · intro ts hts hcols
    simp [get_db_schema_as_create_statements, hts,
      renderTables_all_some cat.sqlite_table_info sqliteColDef colsOfS ts hcols]
  · intro ts hts hcols
    simp [get_db_schema_as_create_statements, hts,
      renderTables_all_some cat.pg_columns pgColDef colsOfP ts hcols]
  · intro d hd ts hts hcols
    have hd1 : d ≠ "sqlite" := by rcases hd with h | h <;> simp [h]
    have hd2 : d ≠ "postgres" := by rcases hd with h | h <;> simp [h]
    simp [get_db_schema_as_create_statements, hd1, hd2, hd, hts,
      renderTables_all_some cat.my_columns myColDef colsOfM ts hcols]

/-- A two-table sqlite catalog for the C7 witness. -/
def catTwoTables : Catalog :=
  { emptyCatalog with
    sqlite_tables := some ["a", "b"],
    sqlite_table_info := fun t =>
      if t = "a" then some [⟨0, "x", "int", 0, none, 0⟩]
      else if t = "b" then some [⟨0, "y", "int", 0, none, 0⟩]
      else none }

/-- Witness for C7: the empty catalog yields `""` in all four dialect tags,
and the two-table catalog yields the two statements joined by one blank
line with no trailing separator. -/
theorem C7_witness :
    get_db_schema_as_create_statements (.conn true true emptyCatalog) "sqlite" = .ok ""
  ∧ get_db_schema_as_create_statements (.conn true true emptyCatalog) "postgres" = .ok ""
  ∧ get_db_schema_as_create_statements (.conn true true emptyCatalog) "mysql" = .ok ""
  ∧ get_db_schema_as_create_statements (.conn true true emptyCatalog) "mariadb" = .ok ""
  ∧ get_db_schema_as_create_statements (.conn true true catTwoTables) "sqlite"
      = .ok "CREATE TABLE a (\n    x INT\n);\n\nCREATE TABLE b (\n    y INT\n);" := by
  have base := C7_zero_tables_and_blank_line_join emptyCatalog
    (fun _ => []) (fun _ => []) (fun _ => [])
  have two := C7_zero_tables_and_blank_line_join catTwoTables
    (fun u => if u = "a" then [⟨0, "x", "int", 0, none, 0⟩]
      else if u = "b" then [⟨0, "y", "int", 0, none, 0⟩] else [])
    (fun _ => []) (fun _ => [])
  refine ⟨base.1 rfl, base.2.1 rfl, (base.2.2.1 rfl).1, (base.2.2.1 rfl).2, ?_⟩
  exact (two.2.2.2.1 ["a", "b"] rfl (by decide)).trans (by rfl)

/-- C8: the postgres branch's raw rows carry no primary-key or
auto-increment information (both normalized flags are false for every row),
so a postgres column definition is exactly name, upper-cased type,
` NOT NULL` precisely when `is_nullable = "NO"`, and the default fragment —
never a PRIMARY KEY or AUTO_INCREMENT fragment. -/
theorem C8_postgres_no_key_information (c : PgCol) :
    (normalizePg c).primaryKey = false
  ∧ (normalizePg c).autoIncrement = false
  ∧ pgColDef c = renderColumnSpec (normalizePg c)
  ∧ pgColDef c
      = "    " ++ c.column_name ++ " " ++ pyUpper c.data_type
        ++ (if c.is_nullable = "NO" then " NOT NULL" else "")
        ++ defaultClause c.column_default := by
  refine ⟨rfl, rfl, pgColDef_eq_spec c, ?_⟩
  by_cases h : c.is_nullable = "NO" <;>
    simp [pgColDef, h, String.append_assoc, String.append_empty]

/-- C9: in the sqlite branch, the column gets ` PRIMARY KEY` exactly when
the integer `pk` flag is nonzero (truthiness, not equality with 1), and in
every dialect the declared type string enters the rendered definition
verbatim after the column name, changed only by upper-casing. -/
theorem C9_pk_truthiness_and_verbatim_types (c : SqliteCol) (p : PgCol) (m : MyCol) :
    sqliteColDef c
      = "    " ++ c.name ++ " " ++ pyUpper c.type
        ++ (if c.notnull ≠ 0 then " NOT NULL" else "")
        ++ defaultClause c.dflt_value
        ++ (if c.pk ≠ 0 then " PRIMARY KEY" else "")
  ∧ sqliteColDef ⟨0, "a", "int", 0, none, 2⟩ = "    a INT PRIMARY KEY"
  ∧ sqliteColDef ⟨0, "a", "int", 0, none, 0⟩ = "    a INT"
  ∧ (∃ rest, sqliteColDef c = "    " ++ c.name ++ " " ++ pyUpper c.type ++ rest)
  ∧ (∃ rest, pgColDef p = "    " ++ p.column_name ++ " " ++ pyUpper p.data_type ++ rest)
  ∧ (∃ rest, myColDef m = "    " ++ m.column_name ++ " " ++ pyUpper m.column_type ++ rest) := by
  have hflat : sqliteColDef c
      = "    " ++ c.name ++ " " ++ pyUpper c.type
        ++ (if c.notnull ≠ 0 then " NOT NULL" else "")
        ++ defaultClause c.dflt_value
        ++ (if c.pk ≠ 0 then " PRIMARY KEY" else "") := by
    by_cases h1 : c.notnull = 0 <;> by_cases h2 : c.pk = 0 <;>
      simp [sqliteColDef, h1, h2, String.append_assoc, String.append_empty]
  refine ⟨hflat, rfl, rfl, ?_, ?_, ?_⟩
  · refine ⟨(if c.notnull ≠ 0 then " NOT NULL" else "")
      ++ defaultClause c.dflt_value
      ++ (if c.pk ≠ 0 then " PRIMARY KEY" else ""), ?_⟩
    rw [hflat]
    simp [String.append_assoc]
  · refine ⟨(if p.is_nullable = "NO" then " NOT NULL" else "")
      ++ defaultClause p.column_default, ?_⟩
    by_cases h : p.is_nullable = "NO" <;>
      simp [pgColDef, h, String.append_assoc, String.append_empty]
  · refine ⟨(if m.is_nullable = "NO" then " NOT NULL" else "")
      ++ defaultClause m.column_default
      ++ (if m.extra = "auto_increment" then " AUTO_INCREMENT" else "")
      ++ (if m.column_key = "PRI" then " PRIMARY KEY" else ""), ?_⟩
    by_cases h1 : m.is_nullable = "NO" <;> by_cases h2 : m.extra = "auto_increment" <;>
      by_cases h3 : m.column_key = "PRI" <;>
        simp [myColDef, h1, h2, h3, String.append_assoc, String.append_empty]

/-- C10: a non-null handle without an `is_connected` method makes the guard
itself raise an uncaught `AttributeError` in both
`get_db_schema_as_create_statements` and `execute_sql_query`, before any
catalog query (the outcome does not depend on the catalog) and outside the
error-to-`None` conversion: the result is neither a schema string nor any
of the `None`-returning failure paths. -/
theorem C10_guard_attribute_error (cat cat2 : Catalog) (connected : Bool)
    (db_type sql : String) :
    get_db_schema_as_create_statements (.conn false connected cat) db_type = .attributeError
  ∧ execute_sql_query (.conn false connected cat) sql = .attributeError
  ∧ get_db_schema_as_create_statements (.conn false connected cat) db_type
      = get_db_schema_as_create_statements (.conn false connected cat2) db_type
  ∧ (∀ s, (SchemaResult.attributeError : SchemaResult) ≠ .ok s)
  ∧ (SchemaResult.attributeError : SchemaResult) ≠ .invalidConnection
  ∧ (SchemaResult.attributeError : SchemaResult) ≠ .unsupportedDialect
  ∧ (SchemaResult.attributeError : SchemaResult) ≠ .extractionFailure := by
  exact ⟨rfl, rfl, rfl, fun s => by simp, by simp, by simp, by simp⟩
